import Mathlib

/-!
Shallow embedding of `src/extra/convert_srtm.py` (stml/mountain).

The script opens an SRTM raster, computes a pixel window for a hardcoded
Aegina bounding box via the raster's inverse affine transform, slices the
elevation matrix with Python/numpy slice semantics, down-samples with
stride 3, and writes a JSON document with `bounds`, `resolution` and
`elevations` fields.

Modelling choices:
- the elevation band is a `List (List Int)` (row-major, as `src.read(1)`);
- geographic coordinates and the affine transform are exact rationals;
  `math.floor` (the rounding used by `rasterio.transform.rowcol`) is
  `qfloor`;
- Python slice semantics (`a[i:j]`, clipping and negative-index wrap) are
  `pySlice`; numpy stride slicing `a[::3]` is `everyNth3`; numpy scalar
  indexing (which raises `IndexError` when out of range) is `npGet`;
- the two runtime failures the script can hit before writing are
  `PyErr.valueError` (`np.min` of an empty subset, line 60) and
  `PyErr.indexError` (the fixed test-point lookup, line 66); they are
  threaded through `convert_srtm_to_json` as an explicit error component;
- the `__main__` guard (rasterio import guard plus argv check) is
  `mainRun`, returning the process exit status and the file written.
-/

/-- Normalize one Python slice bound for a sequence of length `n`:
a negative index counts from the end, then the result is clamped to
`[0, n]`. -/
def pyBound (n : Nat) (i : Int) : Nat :=
  if i < 0 then (i + n).toNat else min i.toNat n

/-- Python list/numpy basic slice `xs[i:j]` (stride 1). Total: never
raises, out-of-range bounds are clipped. -/
def pySlice {α : Type} (xs : List α) (i j : Int) : List α :=
  (xs.take (pyBound xs.length j)).drop (pyBound xs.length i)

/-- Numpy stride slice `xs[::3]`: elements at indices 0, 3, 6, …
(`sample_rate = 3` is the fixed constant of line 72). -/
def everyNth3 {α : Type} : List α → List α
  | [] => []
  | [x] => [x]
  | [x, _] => [x]
  | x :: _ :: _ :: rest => x :: everyNth3 rest

/-- Numpy scalar indexing `xs[i]` with a possibly negative index:
valid iff `-n ≤ i < n`; `none` models an `IndexError`. -/
def npGet {α : Type} (xs : List α) (i : Int) : Option α :=
  if i < 0 then
    if i + xs.length < 0 then none else xs[(i + xs.length).toNat]?
  else xs[i.toNat]?

/-- Numpy 2-D scalar indexing `m[i, j]`. -/
def npGet2 (m : List (List Int)) (i j : Int) : Option Int :=
  (npGet m i).bind fun row => npGet row j

/-- Total number of elements of a 2-D array (numpy `size`); `np.min`
raises `ValueError` exactly when this is 0. -/
def npSize (m : List (List Int)) : Nat := (m.map List.length).sum

/-- `math.floor` on an exact rational (`Int.fdiv` is floor division). -/
def qfloor (q : ℚ) : Int := Int.fdiv q.num q.den

/-- A 2-D affine geotransform, mapping pixel `(col, row)` to geographic
`(lon, lat)`: `lon = a*col + b*row + c`, `lat = d*col + e*row + f`. -/
structure Affine where
  a : ℚ
  b : ℚ
  c : ℚ
  d : ℚ
  e : ℚ
  f : ℚ
deriving DecidableEq

/-- `rasterio.transform.rowcol(t, x, y)`: apply the inverse affine
transform to the geographic point `(x, y)` and floor, returning
`(row, col)`. -/
def rowcol (t : Affine) (x y : ℚ) : Int × Int :=
  let det := t.a * t.e - t.b * t.d
  (qfloor ((t.a * (y - t.f) - t.d * (x - t.c)) / det),
   qfloor ((t.e * (x - t.c) - t.b * (y - t.f)) / det))

/-- Hardcoded Aegina bounding-box constant (line 34). -/
def aegina_lon_min : ℚ := 23.4174315
/-- Hardcoded Aegina bounding-box constant (line 35). -/
def aegina_lon_max : ℚ := 23.5652998
/-- Hardcoded Aegina bounding-box constant (line 36). -/
def aegina_lat_min : ℚ := 37.6735755
/-- Hardcoded Aegina bounding-box constant (line 37). -/
def aegina_lat_max : ℚ := 37.775114
/-- Fixed diagnostic test coordinate, longitude (line 63). -/
def test_lon : ℚ := 23.49
/-- Fixed diagnostic test coordinate, latitude (line 64). -/
def test_lat : ℚ := 37.72

/-- The `bounds` object of the output JSON. -/
structure Bounds where
  lon_min : ℚ
  lon_max : ℚ
  lat_min : ℚ
  lat_max : ℚ
deriving DecidableEq

/-- The `resolution` object of the output JSON. -/
structure Resolution where
  rows : Nat
  cols : Nat
deriving DecidableEq

/-- The output JSON document (lines 84-96). -/
structure OutputDoc where
  bounds : Bounds
  resolution : Resolution
  elevations : List (List Int)
deriving DecidableEq

/-- An opened raster dataset: the elevation band read by `src.read(1)`
and the affine geotransform `src.transform`. -/
structure Raster where
  data : List (List Int)
  transform : Affine

/-- `elevation.shape[0]` of the full band (`src.height`). -/
def rheight (src : Raster) : Nat := src.data.length

/-- `elevation.shape[1]` of the full band (`src.width`). -/
def rwidth (src : Raster) : Nat := (src.data.headD []).length

/-- The raster band is rectangular: every row has the width of the
first row (always true of a numpy 2-D array). -/
def Rectangular (m : List (List Int)) : Prop :=
  ∀ row ∈ m, row.length = (m.headD []).length

/-- Lines 45-52: `rowcol` at the two diagonal corners
`(lon_min, lat_max)`, `(lon_max, lat_min)`, then min/max normalization;
result is `(row_start, row_end, col_start, col_end)`. -/
def pixelWindow (t : Affine) : Int × Int × Int × Int :=
  let rc1 := rowcol t aegina_lon_min aegina_lat_max
  let rc2 := rowcol t aegina_lon_max aegina_lat_min
  (min rc1.1 rc2.1, max rc1.1 rc2.1, min rc1.2 rc2.2, max rc1.2 rc2.2)

/-- Line 57: `elevation[row_start:row_end, col_start:col_end]`. -/
def subsetM (m : List (List Int)) (rs re cs ce : Int) : List (List Int) :=
  (pySlice m rs re).map fun row => pySlice row cs ce

/-- Line 73: `elevation_subset[::sample_rate, ::sample_rate]` with
`sample_rate = 3`. -/
def sampleM (m : List (List Int)) : List (List Int) :=
  (everyNth3 m).map everyNth3

/-- The extracted subset of a raster (lines 45-57). -/
def subsetOf (src : Raster) : List (List Int) :=
  let w := pixelWindow src.transform
  subsetM src.data w.1 w.2.1 w.2.2.1 w.2.2.2

/-- The down-sampled grid of a raster (line 73). -/
def sampledOf (src : Raster) : List (List Int) := sampleM (subsetOf src)

/-- Width of a 2-D array (`shape[1]`), read off the first row. -/
def widthOf (m : List (List Int)) : Nat := (m.headD []).length

/-- The output document built at lines 84-96. -/
def docOf (src : Raster) : OutputDoc :=
  { bounds := ⟨aegina_lon_min, aegina_lon_max, aegina_lat_min, aegina_lat_max⟩
    resolution := ⟨(sampledOf src).length, widthOf (sampledOf src)⟩
    elevations := sampledOf src }

/-- Runtime errors the conversion can raise before the write. -/
inductive PyErr where
  | valueError
  | indexError
deriving DecidableEq

/-- Pixel index of the fixed diagnostic coordinate (line 65). -/
def testIdx (src : Raster) : Int × Int := rowcol src.transform test_lon test_lat

/-- The conversion function (lines 19-113), with the side effects made
explicit: the first component is the file written (path and JSON
document), the second the uncaught runtime error, if any. Order of
effects is the source's: `np.min` of the subset (line 60) raises
`ValueError` on an empty subset; the diagnostic lookup
`elevation[test_row, test_col]` (line 66) raises `IndexError` when out
of range; only then is the document built and written (lines 84-101).
The statistics printed after the write (lines 106-113) cannot raise,
because the subset — hence the sampled grid — is nonempty there. -/
def convert_srtm_to_json (src : Raster)
    (output_file : String := "aegina_elevation.json") :
    Option (String × OutputDoc) × Option PyErr :=
  if npSize (subsetOf src) = 0 then (none, some PyErr.valueError)
  else
    match npGet2 src.data (testIdx src).1 (testIdx src).2 with
    | none => (none, some PyErr.indexError)
    | some _ => (some (output_file, docOf src), none)

/-- Process exit status: `success` is exit code 0, `exitOne` the
explicit `sys.exit(1)` paths, `uncaught` an unhandled exception
(nonzero exit). -/
inductive ExitStatus where
  | success
  | exitOne
  | uncaught (e : PyErr)
deriving DecidableEq

/-- The `__main__` entry (lines 11-17 and 115-122): the rasterio import
guard, the argv-length check, then `convert_srtm_to_json(input_file)` —
note the second CLI argument is never forwarded, so the default output
path is always used. `src` is the raster dataset that opening
`argv[1]` yields. -/
def mainRun (rasterioAvailable : Bool) (argv : List String) (src : Raster) :
    ExitStatus × Option (String × OutputDoc) :=
  if rasterioAvailable then
    if argv.length < 2 then (ExitStatus.exitOne, none)
    else
      let r := convert_srtm_to_json src
      match r.2 with
      | none => (ExitStatus.success, r.1)
      | some e => (ExitStatus.uncaught e, r.1)
  else (ExitStatus.exitOne, none)

/-- In-bounds 2-D element access on nested lists (row `i`, column `j`);
`none` when the element does not exist. -/
def get2 (m : List (List Int)) (i j : Nat) : Option Int :=
  (m[i]?).bind fun row => row[j]?

/-! ### Concrete instances used to witness the theorems -/

/-- A synthetic geotransform: 0.05-degree pixels, origin at
`(23.4, 37.8)`, north-up (latitude decreasing with row). Its inverse
maps the Aegina box to rows `[0, 2)`, columns `[0, 3)` and the test
point to pixel `(1, 1)`. -/
def tstTransform : Affine := ⟨0.05, 0, 23.4, 0, -0.05, 37.8⟩

/-- A 3×4 synthetic raster on which the conversion succeeds. -/
def testRaster : Raster :=
  ⟨[[1, 2, 3, 4], [5, 6, 7, 8], [9, 10, 11, 12]], tstTransform⟩

/-- A 1×4 synthetic raster: the Aegina window clips to a nonempty
subset, but the diagnostic test pixel `(1, 1)` is out of range, so the
conversion raises. -/
def failRaster : Raster := ⟨[[5, 6, 7, 8]], tstTransform⟩

/-- A 6×6 matrix with a distinct value at each cell (value `6*i + j`
at row `i`, column `j`). -/
def M6 : List (List Int) :=
  [[0, 1, 2, 3, 4, 5], [6, 7, 8, 9, 10, 11], [12, 13, 14, 15, 16, 17],
   [18, 19, 20, 21, 22, 23], [24, 25, 26, 27, 28, 29], [30, 31, 32, 33, 34, 35]]

/-! ### List-level lemmas about stride sampling and Python slicing -/

/-- Element `i` of `xs[::3]` is element `3*i` of `xs`. -/
theorem everyNth3_getElem {α : Type} : ∀ (xs : List α) (i : Nat),
    (everyNth3 xs)[i]? = xs[3 * i]?
  | [], i => by simp [everyNth3]
  | [x], i => by
      cases i with
      | zero => simp [everyNth3]
      | succ n =>
          simp only [everyNth3]
          rw [List.getElem?_eq_none (by simp), List.getElem?_eq_none (by simp; omega)]
  | [x, y], i => by
      cases i with
      | zero => simp [everyNth3]
      | succ n =>
          simp only [everyNth3]
          rw [List.getElem?_eq_none (by simp), List.getElem?_eq_none (by simp; omega)]
  | x :: y :: z :: rest, i => by
      cases i with
      | zero => simp [everyNth3]
      | succ n =>
          have ih := everyNth3_getElem rest n
          have h3 : 3 * (n + 1) = 2 + 3 * n + 1 := by omega
          simp only [everyNth3, List.getElem?_cons_succ, h3]
          rw [ih]
          have h4 : 2 + 3 * n = 1 + 3 * n + 1 := by omega
          simp only [h4, List.getElem?_cons_succ]
          have h5 : 1 + 3 * n = 3 * n + 1 := by omega
          simp only [h5, List.getElem?_cons_succ]

/-- `xs[::3]` has `⌈|xs|/3⌉` elements. -/
theorem everyNth3_length {α : Type} : ∀ (xs : List α),
    (everyNth3 xs).length = (xs.length + 2) / 3
  | [] => by simp [everyNth3]
  | [_] => by simp [everyNth3]
  | [_, _] => by simp [everyNth3]
  | _ :: _ :: _ :: rest => by
      have ih := everyNth3_length rest
      simp only [everyNth3, List.length_cons, ih]
      omega

/-- Every element of `xs[::3]` is an element of `xs`. -/
theorem everyNth3_mem {α : Type} : ∀ {xs : List α} {y : α},
    y ∈ everyNth3 xs → y ∈ xs
  | [], _, h => by simp [everyNth3] at h
  | [x], _, h => by simpa [everyNth3] using h
  | [x, _], _, h => by
      simp only [everyNth3, List.mem_singleton] at h
      simp [h]
  | x :: _ :: _ :: rest, y, h => by
      simp only [everyNth3, List.mem_cons] at h
      rcases h with h | h
      · simp [h]
      · have hm := everyNth3_mem h
        simp [hm]

/-- Stride sampling of a nonempty list is nonempty. -/
theorem everyNth3_ne_nil {α : Type} : ∀ {xs : List α}, xs ≠ [] → everyNth3 xs ≠ []
  | [], h => absurd rfl h
  | [_], _ => by simp [everyNth3]
  | [_, _], _ => by simp [everyNth3]
  | _ :: _ :: _ :: _, _ => by simp [everyNth3]

/-- `pyBound` never exceeds the length. -/
theorem pyBound_le (n : Nat) (j : Int) : pyBound n j ≤ n := by
  unfold pyBound
  split <;> omega

/-- On a natural bound, `pyBound` is plain clamping to the length. -/
theorem pyBound_natCast (n a : Nat) : pyBound n (a : Int) = min a n := by
  unfold pyBound
  rw [if_neg (by omega)]
  omega

/-- Slicing with natural bounds: element `i` of `xs[a:b]` is element
`a+i` of `xs` when `a+i < b`, and does not exist otherwise. -/
theorem pySlice_natCast_getElem {α : Type} (xs : List α) (a b i : Nat) :
    (pySlice xs (a : Int) (b : Int))[i]? = if a + i < b then xs[a + i]? else none := by
  simp only [pySlice, pyBound_natCast]
  rw [List.getElem?_drop, List.getElem?_take]
  by_cases hab : a + i < b
  · rw [if_pos hab]
    by_cases han : a ≤ xs.length
    · rw [Nat.min_def, if_pos han]
      by_cases h2 : a + i < min b xs.length
      · rw [if_pos h2]
      · rw [if_neg h2]
        rw [List.getElem?_eq_none (by omega)]
    · rw [Nat.min_def, if_neg han]
      rw [if_neg (by omega)]
      rw [List.getElem?_eq_none (by omega)]
  · rw [if_neg hab]
    rw [if_neg (by omega)]

/-- Length of a Python slice. -/
theorem pySlice_length {α : Type} (xs : List α) (i j : Int) :
    (pySlice xs i j).length = pyBound xs.length j - pyBound xs.length i := by
  simp only [pySlice, List.length_drop, List.length_take]
  have h := pyBound_le xs.length j
  omega

/-- Every element of a Python slice is an element of the source list. -/
theorem pySlice_mem {α : Type} {xs : List α} {i j : Int} {y : α}
    (h : y ∈ pySlice xs i j) : y ∈ xs := by
  simp only [pySlice] at h
  exact List.mem_of_mem_take (List.mem_of_mem_drop h)

/-- An end bound at or past the length is silently clipped. -/
theorem pySlice_clip_end {α : Type} (xs : List α) (i j : Int)
    (h : (xs.length : Int) ≤ j) : pySlice xs i j = pySlice xs i (xs.length : Int) := by
  simp only [pySlice]
  have h1 : pyBound xs.length j = xs.length := by
    unfold pyBound
    rw [if_neg (by omega)]
    omega
  have h2 : pyBound xs.length (xs.length : Int) = xs.length := by
    unfold pyBound
    rw [if_neg (by omega)]
    omega
  rw [h1, h2]

/-- A negative start bound counts from the end of the list. -/
theorem pySlice_neg_start {α : Type} (xs : List α) (i j : Int)
    (hneg : i < 0) (hge : 0 ≤ i + xs.length) :
    pySlice xs i j = pySlice xs (i + xs.length) j := by
  simp only [pySlice]
  have h1 : pyBound xs.length i = (i + xs.length).toNat := by
    unfold pyBound
    rw [if_pos hneg]
  have h2 : pyBound xs.length (i + xs.length) = (i + xs.length).toNat := by
    unfold pyBound
    rw [if_neg (by omega)]
    omega
  rw [h1, h2]

/-! ### 2-D composition lemmas -/

/-- Element `(i, j)` of `m[::3, ::3]` is element `(3i, 3j)` of `m`. -/
theorem sampleM_get2 (m : List (List Int)) (i j : Nat) :
    get2 (sampleM m) i j = get2 m (3 * i) (3 * j) := by
  unfold get2 sampleM
  rw [List.getElem?_map, everyNth3_getElem]
  cases h : m[3 * i]? with
  | none => simp
  | some r => simp [everyNth3_getElem]

/-- Element `(i, j)` of the window `m[rs:re, cs:ce]` (natural bounds)
is element `(rs+i, cs+j)` of `m`, provided the indices fall inside the
window. -/
theorem subsetM_get2_of_lt (m : List (List Int)) (rs re cs ce i j : Nat)
    (hr : rs + i < re) (hc : cs + j < ce) :
    get2 (subsetM m (rs : Int) (re : Int) (cs : Int) (ce : Int)) i j
      = get2 m (rs + i) (cs + j) := by
  unfold get2 subsetM
  rw [List.getElem?_map, pySlice_natCast_getElem, if_pos hr]
  cases h : m[rs + i]? with
  | none => simp
  | some row => simp [pySlice_natCast_getElem, if_pos hc]

/-- Every row of the extracted window has the same length, computed
from the common row width of the source. -/
theorem subsetM_row_length {m : List (List Int)} {W : Nat}
    (hrect : ∀ row ∈ m, row.length = W) (rs re cs ce : Int) :
    ∀ row ∈ subsetM m rs re cs ce, row.length = pyBound W ce - pyBound W cs := by
  intro row hrow
  unfold subsetM at hrow
  rcases List.mem_map.mp hrow with ⟨r0, hr0, rfl⟩
  rw [pySlice_length, hrect r0 (pySlice_mem hr0)]

/-- Every row of the down-sampled grid has length `⌈L/3⌉` when every
source row has length `L`. -/
theorem sampleM_row_length {m : List (List Int)} {L : Nat}
    (hall : ∀ row ∈ m, row.length = L) :
    ∀ row ∈ sampleM m, row.length = (L + 2) / 3 := by
  intro row hrow
  rcases List.mem_map.mp hrow with ⟨r, hr, rfl⟩
  rw [everyNth3_length, hall r (everyNth3_mem hr)]

/-- If all rows have length `L` and there is at least one row, the
2-D width is `L`. -/
theorem widthOf_eq_of_rows {m : List (List Int)} {L : Nat}
    (hne : m ≠ []) (hall : ∀ row ∈ m, row.length = L) : widthOf m = L := by
  cases m with
  | nil => exact absurd rfl hne
  | cons hd tl =>
      simp only [widthOf, List.headD_cons]
      exact hall hd (List.mem_cons_self hd tl)

/-- Down-sampling a nonempty grid gives a nonempty grid. -/
theorem sampleM_ne_nil {m : List (List Int)} (h : m ≠ []) : sampleM m ≠ [] := by
  unfold sampleM
  simp only [ne_eq, List.map_eq_nil_iff]
  exact everyNth3_ne_nil h

/-- A 2-D array with a nonzero element count has at least one row. -/
theorem ne_nil_of_npSize {m : List (List Int)} (h : npSize m ≠ 0) : m ≠ [] := by
  intro hn
  exact h (by simp [npSize, hn])

/-! ### Evaluation of the concrete instances -/

/-- The synthetic transform maps the Aegina box to the pixel window
rows `[0, 2)`, columns `[0, 3)`. -/
theorem pixelWindow_tst : pixelWindow tstTransform = (0, 2, 0, 3) := by
  with_unfolding_all decide

/-- The synthetic transform maps the diagnostic test point to pixel
`(1, 1)`. -/
theorem rowcol_tst_test : rowcol tstTransform test_lon test_lat = (1, 1) := by
  with_unfolding_all decide

/-- Window extraction on the 3×4 synthetic raster. -/
theorem subsetOf_testRaster : subsetOf testRaster = [[1, 2, 3], [5, 6, 7]] := by
  show subsetM testRaster.data (pixelWindow testRaster.transform).1
      (pixelWindow testRaster.transform).2.1 (pixelWindow testRaster.transform).2.2.1
      (pixelWindow testRaster.transform).2.2.2 = _
  rw [show testRaster.transform = tstTransform from rfl, pixelWindow_tst]
  decide

/-- Down-sampling on the 3×4 synthetic raster. -/
theorem sampledOf_testRaster : sampledOf testRaster = [[1]] := by
  rw [sampledOf, subsetOf_testRaster]
  decide

/-- The conversion succeeds on the 3×4 synthetic raster and writes the
default output file. -/
theorem convert_testRaster : convert_srtm_to_json testRaster =
    (some ("aegina_elevation.json", docOf testRaster), none) := by
  rw [convert_srtm_to_json, subsetOf_testRaster]
  rw [show testIdx testRaster = (1, 1) from rowcol_tst_test]
  rw [if_neg (by decide : ¬(npSize [[1, 2, 3], [5, 6, 7]] = 0))]
  rw [show npGet2 testRaster.data (1, 1).1 (1, 1).2 = some 6 from by decide]

/-- Window extraction on the 1×4 raster: the row range `[0, 2)` is
silently clipped to the single existing row. -/
theorem subsetOf_failRaster : subsetOf failRaster = [[5, 6, 7]] := by
  show subsetM failRaster.data (pixelWindow failRaster.transform).1
      (pixelWindow failRaster.transform).2.1 (pixelWindow failRaster.transform).2.2.1
      (pixelWindow failRaster.transform).2.2.2 = _
  rw [show failRaster.transform = tstTransform from rfl, pixelWindow_tst]
  decide

/-- On the 1×4 raster the conversion dies at the diagnostic lookup:
no file is written and an `IndexError` escapes. -/
theorem convert_failRaster :
    convert_srtm_to_json failRaster = (none, some PyErr.indexError) := by
  rw [convert_srtm_to_json, subsetOf_failRaster]
  rw [show testIdx failRaster = (1, 1) from rowcol_tst_test]
  rw [if_neg (by decide : ¬(npSize [[5, 6, 7]] = 0))]
  rw [show npGet2 failRaster.data (1, 1).1 (1, 1).2 = none from by decide]

/-! ### Helper lemmas about numpy indexing and the conversion result -/

/-- A nonnegative index at or past the length raises `IndexError`. -/
theorem npGet_eq_none_of_ge {α : Type} (xs : List α) (i : Int)
    (h : (xs.length : Int) ≤ i) : npGet xs i = none := by
  unfold npGet
  rw [if_neg (by omega : ¬ i < 0)]
  exact List.getElem?_eq_none (by omega)

/-- A successful numpy lookup returns an element of the list. -/
theorem npGet_mem {α : Type} {xs : List α} {i : Int} {y : α}
    (h : npGet xs i = some y) : y ∈ xs := by
  unfold npGet at h
  split at h
  · split at h
    · exact absurd h (by simp)
    · exact List.getElem?_mem h
  · exact List.getElem?_mem h

/-- Anatomy of a successful conversion: the file goes to the requested
path, the document is `docOf`, no error escapes, and the extracted
subset was nonempty. -/
theorem convert_written_eq (src : Raster) (out p : String) (doc : OutputDoc)
    (e : Option PyErr)
    (h : convert_srtm_to_json src out = (some (p, doc), e)) :
    p = out ∧ doc = docOf src ∧ e = none ∧ npSize (subsetOf src) ≠ 0 := by
  rw [convert_srtm_to_json] at h
  by_cases h0 : npSize (subsetOf src) = 0
  · rw [if_pos h0] at h
    simp at h
  · rw [if_neg h0] at h
    cases hg : npGet2 src.data (testIdx src).1 (testIdx src).2 with
    | none =>
        rw [hg] at h
        simp at h
    | some v =>
        rw [hg] at h
        simp only [Prod.mk.injEq, Option.some.injEq] at h
        exact ⟨h.1.1.symm, h.1.2.symm, h.2.symm, h0⟩

/-- When the conversion raises, no file has been written: both
possible errors occur before the write. -/
theorem convert_error_eq (src : Raster) (out : String) (e : PyErr)
    (h : (convert_srtm_to_json src out).2 = some e) :
    (convert_srtm_to_json src out).1 = none := by
  rw [convert_srtm_to_json] at h ⊢
  by_cases h0 : npSize (subsetOf src) = 0
  · rw [if_pos h0]
  · rw [if_neg h0] at h ⊢
    cases hg : npGet2 src.data (testIdx src).1 (testIdx src).2 with
    | none => rfl
    | some v =>
        rw [hg] at h
        simp at h

/-! ### Claims -/

/-- C1: for every extracted pixel window (the half-open slice
`[row_start, row_end) × [col_start, col_end)` of the elevation grid)
of `R` rows and `C` columns, the down-sampled grid has `⌈R/3⌉` rows
and `⌈C/3⌉` columns (`(· + 2) / 3` is ceiling division by 3), its
element `(i, j)` equals the window's element `(3i, 3j)`, which in turn
equals the full grid's element `(row_start + 3i, col_start + 3j)`
whenever those indices fall inside the window. -/
theorem C1_downsample_grid (m : List (List Int)) (W rs re cs ce : Nat)
    (hrect : ∀ row ∈ m, row.length = W) :
    (sampleM (subsetM m rs re cs ce)).length
        = ((subsetM m rs re cs ce).length + 2) / 3 ∧
    (∀ row ∈ sampleM (subsetM m rs re cs ce),
        row.length = (widthOf (subsetM m rs re cs ce) + 2) / 3) ∧
    (∀ i j : Nat, get2 (sampleM (subsetM m rs re cs ce)) i j
        = get2 (subsetM m rs re cs ce) (3 * i) (3 * j)) ∧
    (∀ i j : Nat, rs + 3 * i < re → cs + 3 * j < ce →
        get2 (subsetM m rs re cs ce) (3 * i) (3 * j)
          = get2 m (rs + 3 * i) (cs + 3 * j)) := by
  refine ⟨?_, ?_, ?_, ?_⟩
  · rw [sampleM, List.length_map, everyNth3_length]
  · intro row hrow
    have hall := subsetM_row_length hrect (rs : Int) (re : Int) (cs : Int) (ce : Int)
    have hwne : subsetM m (rs : Int) (re : Int) (cs : Int) (ce : Int) ≠ [] := by
      intro h0
      rw [sampleM, h0] at hrow
      simp [everyNth3] at hrow
    rw [widthOf_eq_of_rows hwne hall]
    exact sampleM_row_length hall row hrow
  · intro i j
    exact sampleM_get2 _ i j
  · intro i j hr hc
    exact subsetM_get2_of_lt m rs re cs ce (3 * i) (3 * j) hr hc

/-- C1 witness: the spec's own end-to-end example, a 6×6 grid with
distinct values, full window, stride-3 sampling giving the 2×2 grid of
the cells `(0,0)`, `(0,3)`, `(3,0)`, `(3,3)`. -/
theorem C1_downsample_grid_witness :
    (sampleM (subsetM M6 0 6 0 6)).length = ((subsetM M6 0 6 0 6).length + 2) / 3 ∧
    get2 (sampleM (subsetM M6 0 6 0 6)) 1 1 = get2 (subsetM M6 0 6 0 6) 3 3 ∧
    get2 (subsetM M6 0 6 0 6) 3 3 = get2 M6 3 3 ∧
    get2 M6 3 3 = some 21 ∧
    sampleM (subsetM M6 0 6 0 6) = [[0, 3], [18, 21]] := by
  have h := C1_downsample_grid M6 6 0 6 0 6 (by decide)
  exact ⟨h.1, h.2.2.1 1 1, h.2.2.2 1 1 (by decide) (by decide), by decide, by decide⟩

/-- C2: on every successful run, `resolution.rows` equals the number
of inner arrays of `elevations` and `resolution.cols` equals the
length of every inner array. -/
theorem C2_resolution_consistent (src : Raster) (out p : String) (doc : OutputDoc)
    (e : Option PyErr) (hrect : Rectangular src.data)
    (h : convert_srtm_to_json src out = (some (p, doc), e)) :
    doc.resolution.rows = doc.elevations.length ∧
    ∀ row ∈ doc.elevations, row.length = doc.resolution.cols := by
  obtain ⟨-, hdoc, -, hsz⟩ := convert_written_eq src out p doc e h
  subst hdoc
  constructor
  · rfl
  · have hall := subsetM_row_length hrect (pixelWindow src.transform).1
      (pixelWindow src.transform).2.1 (pixelWindow src.transform).2.2.1
      (pixelWindow src.transform).2.2.2
    have hsrows : ∀ row ∈ sampledOf src,
        row.length = (pyBound (src.data.headD []).length (pixelWindow src.transform).2.2.2
          - pyBound (src.data.headD []).length (pixelWindow src.transform).2.2.1 + 2) / 3 :=
      sampleM_row_length hall
    have hne : subsetOf src ≠ [] := ne_nil_of_npSize hsz
    have hsne : sampledOf src ≠ [] := sampleM_ne_nil hne
    intro row hrow
    show row.length = widthOf (sampledOf src)
    rw [widthOf_eq_of_rows hsne hsrows]
    exact hsrows row hrow

/-- C2 witness: the successful run on the 3×4 synthetic raster. -/
theorem C2_resolution_consistent_witness :
    ((docOf testRaster).resolution.rows = (docOf testRaster).elevations.length) ∧
    (docOf testRaster).resolution.rows = 1 ∧
    (docOf testRaster).elevations = [[1]] := by
  have h := C2_resolution_consistent testRaster "aegina_elevation.json"
      "aegina_elevation.json" (docOf testRaster) none
      (show ∀ row ∈ testRaster.data, row.length = (testRaster.data.headD []).length
        by decide)
      convert_testRaster
  refine ⟨h.1, ?_, ?_⟩
  · show (sampledOf testRaster).length = 1
    rw [sampledOf_testRaster]
    rfl
  · show sampledOf testRaster = [[1]]
    exact sampledOf_testRaster

/-- C3: for every invertible raster transform, the pixel window is the
min/max normalization of the inverse affine transform applied to the
two opposite corners `(lon_min, lat_max)` and `(lon_max, lat_min)`,
and therefore `row_start ≤ row_end` and `col_start ≤ col_end`. -/
theorem C3_window_normalized (t : Affine)
    (_hdet : t.a * t.e - t.b * t.d ≠ 0) :
    pixelWindow t
      = (min (rowcol t aegina_lon_min aegina_lat_max).1
             (rowcol t aegina_lon_max aegina_lat_min).1,
         max (rowcol t aegina_lon_min aegina_lat_max).1
             (rowcol t aegina_lon_max aegina_lat_min).1,
         min (rowcol t aegina_lon_min aegina_lat_max).2
             (rowcol t aegina_lon_max aegina_lat_min).2,
         max (rowcol t aegina_lon_min aegina_lat_max).2
             (rowcol t aegina_lon_max aegina_lat_min).2) ∧
    (pixelWindow t).1 ≤ (pixelWindow t).2.1 ∧
    (pixelWindow t).2.2.1 ≤ (pixelWindow t).2.2.2 := by
  refine ⟨rfl, ?_, ?_⟩ <;> simp only [pixelWindow] <;> exact min_le_max

/-- C3 witness: the synthetic transform (determinant `-1/400 ≠ 0`). -/
theorem C3_window_normalized_witness :
    (pixelWindow tstTransform).1 ≤ (pixelWindow tstTransform).2.1 ∧
    (pixelWindow tstTransform).2.2.1 ≤ (pixelWindow tstTransform).2.2.2 := by
  have h := C3_window_normalized tstTransform (by with_unfolding_all decide)
  exact ⟨h.2.1, h.2.2⟩

/-- C4: whatever the raster's content and transform, a successful run
writes a document whose `bounds` field is exactly the four hardcoded
Aegina constants. -/
theorem C4_bounds_constant (src : Raster) (out p : String) (doc : OutputDoc)
    (e : Option PyErr)
    (h : convert_srtm_to_json src out = (some (p, doc), e)) :
    doc.bounds = ⟨aegina_lon_min, aegina_lon_max, aegina_lat_min, aegina_lat_max⟩ := by
  obtain ⟨-, hdoc, -, -⟩ := convert_written_eq src out p doc e h
  subst hdoc
  rfl

/-- C4 witness: the successful run on the 3×4 synthetic raster. -/
theorem C4_bounds_constant_witness :
    (docOf testRaster).bounds
      = ⟨aegina_lon_min, aegina_lon_max, aegina_lat_min, aegina_lat_max⟩ :=
  C4_bounds_constant testRaster "aegina_elevation.json" "aegina_elevation.json"
    (docOf testRaster) none convert_testRaster

/-- C5 counterexample: invoked with a second argument `custom.json`,
the program still writes to `aegina_elevation.json`, because
`__main__` (line 122) never forwards `sys.argv[2]` to
`convert_srtm_to_json`. -/
theorem C5_second_argument_counterexample :
    (mainRun true ["convert_srtm.py", "input.tif", "custom.json"] testRaster).2
      = some ("aegina_elevation.json", docOf testRaster) ∧
    "aegina_elevation.json" ≠ "custom.json" := by
  constructor
  · simp [mainRun, convert_testRaster]
  · decide

/-- C5 amended: whenever the entry point writes an output file, it is
written to the default path `aegina_elevation.json`; the second
command-line argument is ignored. -/
theorem C5_default_output_path (b : Bool) (argv : List String) (src : Raster)
    (p : String) (doc : OutputDoc)
    (h : (mainRun b argv src).2 = some (p, doc)) :
    p = "aegina_elevation.json" := by
  rw [mainRun] at h
  cases b with
  | false => simp at h
  | true =>
      by_cases hl : argv.length < 2
      · rw [if_pos hl] at h
        simp at h
      · rw [if_neg hl] at h
        simp only [if_pos rfl] at h
        rcases hc : convert_srtm_to_json src with ⟨w, err⟩
        rw [hc] at h
        cases err <;> simp at h <;> subst h <;>
          exact (convert_written_eq src _ p doc _ hc).1

/-- C5 amended witness: a run with two CLI arguments writes to the
default path. -/
theorem C5_default_output_path_witness :
    "aegina_elevation.json" = "aegina_elevation.json" ∧
    (mainRun true ["convert_srtm.py", "input.tif"] testRaster).2
      = some ("aegina_elevation.json", docOf testRaster) := by
  have hm : (mainRun true ["convert_srtm.py", "input.tif"] testRaster).2
      = some ("aegina_elevation.json", docOf testRaster) := by
    simp [mainRun, convert_testRaster]
  exact ⟨C5_default_output_path true ["convert_srtm.py", "input.tif"] testRaster
    "aegina_elevation.json" (docOf testRaster) hm, hm⟩

/-- C6: when rasterio cannot be imported the process exits with status
1 before any conversion work (the result does not depend on the
raster), and no output file is created. -/
theorem C6_import_guard (argv : List String) (src : Raster) :
    mainRun false argv src = (ExitStatus.exitOne, none) := by
  simp [mainRun]

/-- C7: invoked with no input-file argument (fewer than two argv
entries), the process exits with status 1 and no output file is
created. -/
theorem C7_no_input_argument (argv : List String) (src : Raster)
    (h : argv.length < 2) :
    mainRun true argv src = (ExitStatus.exitOne, none) := by
  simp [mainRun, h]

/-- C7 witness: only the script name on the command line. -/
theorem C7_no_input_argument_witness :
    mainRun true ["convert_srtm.py"] testRaster = (ExitStatus.exitOne, none) :=
  C7_no_input_argument ["convert_srtm.py"] testRaster (by decide)

/-- C8: any error raised inside the conversion is not locally handled:
it escapes `mainRun` unchanged as an uncaught error, the exit status
is not the success status, and whatever the conversion had written
stays as is — in fact both possible errors strike before the write, so
no file exists and there is nothing to clean up. -/
theorem C8_uncaught_error (src : Raster) (argv : List String) (e : PyErr)
    (hargv : 2 ≤ argv.length) (herr : (convert_srtm_to_json src).2 = some e) :
    mainRun true argv src
        = (ExitStatus.uncaught e, (convert_srtm_to_json src).1) ∧
    (convert_srtm_to_json src).1 = none ∧
    ExitStatus.uncaught e ≠ ExitStatus.success := by
  refine ⟨?_, convert_error_eq src _ e herr, by simp⟩
  simp [mainRun, Nat.not_lt.mpr hargv, herr]

/-- C8 witness: the 1×4 raster whose conversion raises `IndexError`
at the diagnostic lookup. -/
theorem C8_uncaught_error_witness :
    mainRun true ["convert_srtm.py", "input.tif"] failRaster
      = (ExitStatus.uncaught PyErr.indexError, none) ∧
    ExitStatus.uncaught PyErr.indexError ≠ ExitStatus.success := by
  have h := C8_uncaught_error failRaster ["convert_srtm.py", "input.tif"]
      PyErr.indexError (by decide) (by rw [convert_failRaster])
  refine ⟨?_, h.2.2⟩
  rw [h.1, h.2.1]

/-- C9: the window-slicing step is total — it never raises for any
computed window. End indices at or past the array bounds are silently
clipped (rows and columns alike), a negative start index is
interpreted relative to the end of the array, and the result never has
more rows than the source. -/
theorem C9_slice_never_raises (m : List (List Int)) (rs re cs ce : Int) :
    ((m.length : Int) ≤ re →
        subsetM m rs re cs ce = subsetM m rs (m.length : Int) cs ce) ∧
    (rs < 0 → 0 ≤ rs + m.length →
        subsetM m rs re cs ce = subsetM m (rs + m.length) re cs ce) ∧
    (∀ row : List Int, (row.length : Int) ≤ ce →
        pySlice row cs ce = pySlice row cs (row.length : Int)) ∧
    (∀ row : List Int, cs < 0 → 0 ≤ cs + row.length →
        pySlice row cs ce = pySlice row (cs + row.length) ce) ∧
    (subsetM m rs re cs ce).length ≤ m.length := by
  refine ⟨?_, ?_, ?_, ?_, ?_⟩
  · intro h
    unfold subsetM
    rw [pySlice_clip_end m rs re h]
  · intro h1 h2
    unfold subsetM
    rw [pySlice_neg_start m rs re h1 h2]
  · intro row h
    exact pySlice_clip_end row cs ce h
  · intro row h1 h2
    exact pySlice_neg_start row cs ce h1 h2
  · unfold subsetM
    rw [List.length_map, pySlice_length]
    have h := pyBound_le m.length re
    omega

/-- C9 witness: a 2×2 grid sliced with a negative row start and
out-of-range end bounds: the slice clips and wraps instead of
raising. -/
theorem C9_slice_never_raises_witness :
    subsetM [[1, 2], [3, 4]] (-1) 10 0 5 = subsetM [[1, 2], [3, 4]] (-1) 2 0 5 ∧
    subsetM [[1, 2], [3, 4]] (-1) 10 0 5 = subsetM [[1, 2], [3, 4]] 1 10 0 5 ∧
    (subsetM [[1, 2], [3, 4]] (-1) 10 0 5).length ≤ [[1, 2], [3, 4]].length ∧
    subsetM [[1, 2], [3, 4]] (-1) 10 0 5 = [[3, 4]] := by
  have h := C9_slice_never_raises [[1, 2], [3, 4]] (-1) 10 0 5
  exact ⟨h.1 (by decide), h.2.1 (by decide) (by decide), h.2.2.2.2, by decide⟩

/-- C10: every conversion looks up the elevation at the fixed
diagnostic coordinate `(23.49, 37.72)` before writing; when the pixel
index computed for it is at or beyond the raster's height or width the
lookup raises `IndexError`, the conversion writes nothing, and the
process terminates as an uncaught error with no output file — even
when the Aegina window itself produced a valid nonempty subset. -/
theorem C10_test_lookup_guards (src : Raster)
    (hrect : Rectangular src.data)
    (hwin : npSize (subsetOf src) ≠ 0)
    (hidx : (rheight src : Int) ≤ (testIdx src).1 ∨
            (rwidth src : Int) ≤ (testIdx src).2) :
    convert_srtm_to_json src = (none, some PyErr.indexError) ∧
    ∀ argv : List String, 2 ≤ argv.length →
      mainRun true argv src = (ExitStatus.uncaught PyErr.indexError, none) := by
  have hget : npGet2 src.data (testIdx src).1 (testIdx src).2 = none := by
    rcases hidx with h | h
    · rw [npGet2, npGet_eq_none_of_ge src.data _ h]
      rfl
    · cases hrow : npGet src.data (testIdx src).1 with
      | none => simp [npGet2, hrow]
      | some row =>
          have hlen : row.length = rwidth src := hrect row (npGet_mem hrow)
          have hnone : npGet row (testIdx src).2 = none :=
            npGet_eq_none_of_ge row _ (by rw [hlen]; exact h)
          simp [npGet2, hrow, hnone]
  have hcv : convert_srtm_to_json src = (none, some PyErr.indexError) := by
    rw [convert_srtm_to_json, if_neg hwin, hget]
  refine ⟨hcv, fun argv hargv => ?_⟩
  simp [mainRun, Nat.not_lt.mpr hargv, hcv]

/-- C10 witness: the 1×4 raster — its Aegina window clips to the
nonempty subset `[[5, 6, 7]]`, yet the diagnostic pixel `(1, 1)` is at
the raster's height, so the conversion dies with no output. -/
theorem C10_test_lookup_guards_witness :
    convert_srtm_to_json failRaster = (none, some PyErr.indexError) ∧
    mainRun true ["convert_srtm.py", "input.tif"] failRaster
      = (ExitStatus.uncaught PyErr.indexError, none) := by
  have h := C10_test_lookup_guards failRaster
      (show ∀ row ∈ failRaster.data, row.length = (failRaster.data.headD []).length
        by decide)
      (by rw [subsetOf_failRaster]; decide)
      (Or.inl (by rw [show testIdx failRaster = (1, 1) from rowcol_tst_test]; decide))
  exact ⟨h.1, h.2 ["convert_srtm.py", "input.tif"] (by decide)⟩
